import Mathlib

/-!
# Verification of the weather-app historical forecasting pipeline

Shallow embedding of the core forecasting pipeline of the repository
(`historical.py` and the orchestration in `app.py`): feature building,
min-max scaling, autoregressive temperature prediction, daily aggregation
and the weather-condition classifier.  Real-valued quantities are modelled
as rationals (`ℚ`); the hourly series and feature matrices are modelled as
lists and index functions.  Each definition mirrors one function of the
source; the theorems settle the specification claims about them.
-/

namespace WeatherApp

/-! ## ConditionClassifier

Embedding of the decision chain at `historical.py` lines 205–226
(`get_5day_forecast_data`): nested `if`/`elif` on the day's aggregated
precipitation, wind speed and cloud cover. -/

/-- Weather-code classifier exactly as written in the source:
the `if precipitation > 2.5 / elif ... / else` chain. -/
def weather_code (precip wind cloud : ℚ) : ℕ :=
  if precip > 5/2
    then (if wind > 15 then 99 else if wind > 10 then 95 else 65)
  else if precip > 1/2 then (if wind > 10 then 82 else 63)
  else if precip > 1/10 then 61
  else if cloud > 80 then 3
  else if cloud > 50 then 2
  else if cloud > 20 then 1
  else 0

/-- The fixed decision table of the spec (§4.3), written as an ordered
list of (guard, code) rows, evaluated in strict priority order:
the first row whose guard holds wins. -/
def conditionTable (precip wind cloud : ℚ) : List (Bool × ℕ) :=
  [ (decide (precip > 5/2 ∧ wind > 15), 99)
  , (decide (precip > 5/2 ∧ wind > 10), 95)
  , (decide (precip > 5/2),             65)
  , (decide (precip > 1/2 ∧ wind > 10), 82)
  , (decide (precip > 1/2),             63)
  , (decide (precip > 1/10),            61)
  , (decide (cloud > 80),                3)
  , (decide (cloud > 50),                2)
  , (decide (cloud > 20),                1) ]

/-- First-match-wins evaluation of a guarded table, with a default code. -/
def firstMatch : List (Bool × ℕ) → ℕ → ℕ
  | [],           d => d
  | (g, c) :: rs, d => if g then c else firstMatch rs d

/-- The spec's classifier: the table of §4.3 under first-match-wins
evaluation, defaulting to code 0 (clear sky). -/
def weatherCodeSpec (precip wind cloud : ℚ) : ℕ :=
  firstMatch (conditionTable precip wind cloud) 0

/-! ## MinMaxScaler

Embedding of sklearn's `MinMaxScaler` with the default feature range
`[0,1]`, as used in `prepare_weather_data` (`historical.py` lines 91–98)
and inverted in `predict_weather_simple` (line 133).  sklearn replaces a
zero data range by 1 before dividing (`_handle_zeros_in_scale`). -/

structure MinMaxScaler where
  dataMin : ℚ
  dataMax : ℚ

/-- The effective denominator: the data range, with zero replaced by 1
as sklearn does. -/
def MinMaxScaler.range (s : MinMaxScaler) : ℚ :=
  if s.dataMax - s.dataMin = 0 then 1 else s.dataMax - s.dataMin

/-- Forward transform: `(x - min) / range`. -/
def MinMaxScaler.transform (s : MinMaxScaler) (x : ℚ) : ℚ :=
  (x - s.dataMin) / s.range

/-- Inverse transform: `y * range + min`. -/
def MinMaxScaler.inverse (s : MinMaxScaler) (y : ℚ) : ℚ :=
  y * s.range + s.dataMin

/-! ## Claim C1: the classifier follows the decision table in priority order -/

/-- C1: for every aggregated day input, the source's classifier
(`weather_code`) returns exactly the code of the spec's fixed decision
table evaluated first-match-wins (`weatherCodeSpec`); in particular
precipitation 3.0 with wind 20 yields 99. -/
theorem weather_code_matches_table (precip wind cloud : ℚ) :
    weather_code precip wind cloud = weatherCodeSpec precip wind cloud ∧
    weather_code 3 20 cloud = 99 := by
  constructor
  · simp only [weather_code, weatherCodeSpec, conditionTable, firstMatch,
      decide_eq_true_eq]
    split_ifs <;> first | rfl | tauto
  · unfold weather_code
    norm_num

/-! ## Claim C4: min-max scaling round-trip -/

/-- C4: for every fitted min-max scaler (any recorded column min and max,
the zero-range case handled as sklearn does) and every value `x`,
inverting the forward transform recovers `x` exactly, so predictions
inverted through the retained target scaler are in physical units. -/
theorem scaler_round_trip (s : MinMaxScaler) (x : ℚ) :
    s.inverse (s.transform x) = x := by
  unfold MinMaxScaler.inverse MinMaxScaler.transform
  have h : s.range ≠ 0 := by
    unfold MinMaxScaler.range
    split <;> simp_all
  field_simp

/-! ## FeatureBuilder

Embedding of the feature engineering in `fetch_historical_weather`
(`historical.py` lines 53–65): pandas `shift(lag)` leaves the first `lag`
rows undefined, `rolling(window).mean()` (with the default
`min_periods = window`) leaves the first `window - 1` rows undefined, and
`dropna()` removes every row with an undefined entry.  The three base
columns that get lag/rolling features (temperature, humidity, pressure)
are modelled as index functions `ℕ → ℚ`; a fully-populated series of `n`
hours occupies indices `0, …, n-1`. -/

def lags : List ℕ := [1, 2, 3, 6, 12, 24]

def windows : List ℕ := [6, 12, 24]

/-- `df[col].shift(lag)` at row `i`: defined iff `lag ≤ i`. -/
def lagFeature (f : ℕ → ℚ) (lag i : ℕ) : Option ℚ :=
  if lag ≤ i then some (f (i - lag)) else none

/-- `df[col].rolling(window=w).mean()` at row `i`: the trailing mean of
the `w` values ending at row `i`, defined iff `w ≤ i + 1`. -/
def rollingMean (f : ℕ → ℚ) (w i : ℕ) : Option ℚ :=
  if w ≤ i + 1 then some (((List.range w).map fun k => f (i - k)).sum / w)
  else none

/-- Row `i` survives `dropna()`: all 18 lag features and all 9 rolling
features are defined there. -/
def rowComplete (t h p : ℕ → ℚ) (i : ℕ) : Bool :=
  (lags.all fun L => (lagFeature t L i).isSome && (lagFeature h L i).isSome
    && (lagFeature p L i).isSome)
  && (windows.all fun w => (rollingMean t w i).isSome
    && (rollingMean h w i).isSome && (rollingMean p w i).isSome)

/-- The indices of the rows of an `n`-hour series that survive
`dropna()`. -/
def usableRows (t h p : ℕ → ℚ) (n : ℕ) : List ℕ :=
  (List.range n).filter (rowComplete t h p)

theorem isSome_lagFeature (f : ℕ → ℚ) (L i : ℕ) :
    (lagFeature f L i).isSome = decide (L ≤ i) := by
  unfold lagFeature
  split <;> simp_all

theorem isSome_rollingMean (f : ℕ → ℚ) (w i : ℕ) :
    (rollingMean f w i).isSome = decide (w ≤ i + 1) := by
  unfold rollingMean
  split <;> simp_all

theorem rowComplete_iff (t h p : ℕ → ℚ) (i : ℕ) :
    rowComplete t h p i = true ↔ 24 ≤ i := by
  simp [rowComplete, lags, windows, isSome_lagFeature, isSome_rollingMean]
  omega

theorem rowComplete_eq (t h p : ℕ → ℚ) (i : ℕ) :
    rowComplete t h p i = decide (24 ≤ i) := by
  by_cases h24 : 24 ≤ i <;>
    simp [h24, (rowComplete_iff t h p i).symm] <;>
    simpa [h24] using (rowComplete_iff t h p i)

theorem usableRows_eq (t h p : ℕ → ℚ) (n : ℕ) :
    usableRows t h p n = (List.range n).filter fun i => decide (24 ≤ i) := by
  unfold usableRows
  congr 1
  funext i
  exact rowComplete_eq t h p i

theorem length_filter_range_le24 (n : ℕ) :
    ((List.range n).filter fun i => decide (24 ≤ i)).length = n - 24 := by
  induction n with
  | zero => simp
  | succ k ih =>
      rw [List.range_succ, List.filter_append, List.length_append, ih]
      by_cases h : 24 ≤ k <;> simp [List.filter, h] <;> omega

/-- C3: `dropna()` keeps exactly the rows at index ≥ 24 (those whose
24-hour lag and rolling windows fit inside the series): an `n`-hour
series keeps `n - 24` rows, so 24 hours keep zero rows and 25 hours keep
exactly one; and every kept row has all 6×3 lag features and all 3×3
rolling means defined. -/
theorem usable_rows_exactly_after_24 (t h p : ℕ → ℚ) (n : ℕ) :
    usableRows t h p n = ((List.range n).filter fun i => decide (24 ≤ i)) ∧
    (usableRows t h p n).length = n - 24 ∧
    (usableRows t h p 24).length = 0 ∧
    (usableRows t h p 25).length = 1 ∧
    ∀ i ∈ usableRows t h p n,
      (∀ L ∈ lags, (lagFeature t L i).isSome = true ∧
        (lagFeature h L i).isSome = true ∧ (lagFeature p L i).isSome = true) ∧
      (∀ w ∈ windows, (rollingMean t w i).isSome = true ∧
        (rollingMean h w i).isSome = true ∧ (rollingMean p w i).isSome = true) := by
  refine ⟨usableRows_eq t h p n, ?_, ?_, ?_, ?_⟩
  · rw [usableRows_eq, length_filter_range_le24]
  · rw [usableRows_eq, length_filter_range_le24]
  · rw [usableRows_eq, length_filter_range_le24]
  · intro i hi
    have h24 : 24 ≤ i := by
      have := List.of_mem_filter hi
      exact (rowComplete_iff t h p i).mp this
    constructor
    · intro L hL
      have hL24 : L ≤ 24 := by
        simp [lags] at hL
        rcases hL with rfl|rfl|rfl|rfl|rfl|rfl <;> omega
      simp [isSome_lagFeature]
      omega
    · intro w hw
      have hw24 : w ≤ 24 := by
        simp [windows] at hw
        rcases hw with rfl|rfl|rfl <;> omega
      simp [isSome_rollingMean]
      omega

/-! ## Training gate

Embedding of the orchestration in `app.py` `main` (lines 386–397).  The
code guards model fitting by `if not historical_df.empty and
len(historical_df) > 100:` and then, after `prepare_weather_data` (which
only selects columns and rescales, never changing the row count, so
`len(X) == len(historical_df)`), by `if len(X) > 100:`.  Only then is the
regression trained; otherwise a warning is shown and no forecast is
produced.  `nUsable` is the row count of the post-`dropna()` dataframe. -/

def trainingDecision (nUsable : ℕ) : Bool :=
  if nUsable ≠ 0 ∧ 100 < nUsable then
    if 100 < nUsable then true else false
  else false

/-! ## ForecastModel — autoregressive prediction

Embedding of `predict_weather_simple` (`historical.py` lines 114–139).
A feature row is an index function `ℕ → ℚ` whose column 0 is temperature
(the first entry of `feature_cols` in `prepare_weather_data`); a model
maps one scaled feature row to one scaled prediction. -/

/-- A scaled feature row; column 0 is temperature. -/
abbrev FeatureVec : Type := ℕ → ℚ

/-- A trained regression model: one scaled feature row in, one scaled
temperature out (`model.predict(last_features)[0]`). -/
abbrev Model : Type := FeatureVec → ℚ

/-- `last_features[0, 0] = pred`: overwrite column 0 only. -/
def updateTemp (row : FeatureVec) (pred : ℚ) : FeatureVec :=
  fun j => if j = 0 then pred else row j

/-- The prediction loop: after `n` iterations, the list of appended
scaled predictions (`pred_values`) and the current feature row
(`last_features`). -/
def predSteps (model : Model) (row : FeatureVec) : ℕ → List ℚ × FeatureVec
  | 0 => ([], row)
  | n + 1 =>
      let s := predSteps model row n
      let p := model s.2
      (s.1 ++ [p], updateTemp s.2 p)

/-- The feature row after `k` loop iterations, as a direct iterate. -/
def nthFeatureRow (model : Model) (row : FeatureVec) : ℕ → FeatureVec
  | 0 => row
  | k + 1 =>
      updateTemp (nthFeatureRow model row k) (model (nthFeatureRow model row k))

/-- The scaled prediction for hour `k` of the horizon: the model applied
to the feature row as it stands at iteration `k`. -/
def hourPrediction (model : Model) (row : FeatureVec) (k : ℕ) : ℚ :=
  model (nthFeatureRow model row k)

/-- `predict_weather_simple`: for each model of the mapping, run
`days * 24` autoregressive steps from the last row of `X` and invert the
scaled predictions through the target scaler.  An empty `X` makes the
loop body raise (`[0]` on an empty prediction), which the `except` arm
turns into a skipped entry. -/
def predict_weather_simple (models : List (String × Model)) (X : List FeatureVec)
    (scaler_y : MinMaxScaler) (days : ℕ) : List (String × List ℚ) :=
  models.filterMap fun nm =>
    match X.getLast? with
    | none => none
    | some last =>
        some (nm.1, (predSteps nm.2 last (days * 24)).1.map scaler_y.inverse)

theorem predSteps_snd (model : Model) (row : FeatureVec) (n : ℕ) :
    (predSteps model row n).2 = nthFeatureRow model row n := by
  induction n with
  | zero => rfl
  | succ k ih => simp [predSteps, nthFeatureRow, ih]

theorem predSteps_fst (model : Model) (row : FeatureVec) (n : ℕ) :
    (predSteps model row n).1 = (List.range n).map (hourPrediction model row) := by
  induction n with
  | zero => rfl
  | succ k ih =>
      simp [predSteps, ih, List.range_succ, hourPrediction, predSteps_snd]

/-! ## Claim C2: the training-size gate -/

/-- C2 counterexample: with exactly 100 usable rows the code refuses to
fit (`len(X) > 100` is false), while the claim says 100 rows are fit. -/
theorem training_at_100_rejected : trainingDecision 100 = false := by
  decide

/-- C2 (amended): a model is fit iff the feature matrix has strictly
more than 100 usable rows; with 100 or fewer usable rows (including
exactly 100) no model is fit and no forecast is produced. -/
theorem training_gate_iff (nUsable : ℕ) :
    trainingDecision nUsable = true ↔ 100 < nUsable := by
  unfold trainingDecision
  split_ifs with h1 h2 <;> simp_all <;> omega

theorem filterMap_some_eq_map {α β : Type} (f : α → β) (l : List α) :
    l.filterMap (fun a => some (f a)) = l.map f := by
  induction l with
  | nil => rfl
  | cons a as ih => simp [List.filterMap_cons, ih]

/-! ## Claim C5: the prediction horizon -/

/-- C5: whenever the scaled feature matrix is non-empty (its last row is
`last`), `predict_weather_simple` maps every model of the mapping to the
series of exactly `days * 24` inverted predictions, whose `k`-th entry is
the inverted prediction for hour `k` of the horizon. -/
theorem predict_full_horizon (models : List (String × Model)) (X : List FeatureVec)
    (scaler_y : MinMaxScaler) (days : ℕ) (last : FeatureVec)
    (hX : X.getLast? = some last) :
    predict_weather_simple models X scaler_y days =
      models.map fun nm =>
        (nm.1, (List.range (days * 24)).map fun k =>
          scaler_y.inverse (hourPrediction nm.2 last k)) := by
  unfold predict_weather_simple
  rw [hX]
  refine (filterMap_some_eq_map
    (fun nm : String × Model =>
      (nm.1, (predSteps nm.2 last (days * 24)).1.map scaler_y.inverse))
    models).trans ?_
  congr 1
  funext nm
  rw [predSteps_fst, List.map_map]
  rfl

/-- C5 witness: one model, a one-row matrix, one day ahead. -/
theorem predict_full_horizon_witness :
    predict_weather_simple [("lr", fun r => r 0)] [fun _ => (1 : ℚ)] ⟨0, 1⟩ 1 =
      [("lr", (List.range (1 * 24)).map fun k =>
        MinMaxScaler.inverse ⟨0, 1⟩
          (hourPrediction (fun r => r 0) (fun _ => (1 : ℚ)) k))] :=
  predict_full_horizon [("lr", fun r => r 0)] [fun _ => (1 : ℚ)] ⟨0, 1⟩ 1
    (fun _ => (1 : ℚ)) rfl

/-! ## Claim C6: only the temperature column feeds back -/

/-- C6: at every iteration of the prediction loop, the current feature
row agrees with the last observed row on every column other than
temperature (column 0), and column 0 of the next row is exactly the
value just predicted from the current row. -/
theorem autoregression_frame (model : Model) (row : FeatureVec) (k j : ℕ)
    (hj : j ≠ 0) :
    (predSteps model row k).2 j = row j ∧
    (predSteps model row (k + 1)).2 0 = model (predSteps model row k).2 := by
  constructor
  · rw [predSteps_snd]
    induction k with
    | zero => rfl
    | succ n ih => simp [nthFeatureRow, updateTemp, hj, ih]
  · rfl

/-- C6 witness: a concrete model and row, iteration 3, column 2. -/
theorem autoregression_frame_witness :
    (predSteps (fun r => r 0 + 1) (fun _ => (5 : ℚ)) 3).2 2 = 5 ∧
    (predSteps (fun r => r 0 + 1) (fun _ => (5 : ℚ)) 4).2 0 =
      (fun r : FeatureVec => r 0 + 1) (predSteps (fun r => r 0 + 1) (fun _ => (5 : ℚ)) 3).2 :=
  autoregression_frame (fun r => r 0 + 1) (fun _ => (5 : ℚ)) 3 2 (by decide)

/-! ## ForecastAggregator

Embedding of `get_5day_forecast_data` (`historical.py` lines 141–237).
A historical row carries the fields the aggregator reads (`day_of_year`
from the datetime column, plus cloud cover, precipitation, wind speed).
The two external effects — the calendar (`tomorrow + i` days has some
day-of-year) and the `random.uniform` perturbations per day — enter as
explicit parameters `targetDoy : ℕ → ℤ` and `rand : ℕ → ℚ × ℚ × ℚ`. -/

structure HistRow where
  day_of_year : ℤ
  cloud_cover : ℚ
  precipitation : ℚ
  wind_speed : ℚ
deriving DecidableEq

structure DailyForecast where
  temperature : ℚ
  weather_code : ℕ
  cloud_cover : ℚ
  precipitation : ℚ
  wind_speed : ℚ
deriving DecidableEq

/-- `np.mean` / pandas `.mean()` of a list of values. -/
def mean (xs : List ℚ) : ℚ := xs.sum / xs.length

/-- The rows whose day-of-year is within ±7 of the target day-of-year
(`historical.py` lines 154–157). -/
def similarDays (df : List HistRow) (targetDoy : ℤ) : List HistRow :=
  df.filter fun r =>
    decide (targetDoy - 7 ≤ r.day_of_year) && decide (r.day_of_year ≤ targetDoy + 7)

/-- The (cloud_cover, precipitation, wind_speed) triple for future day
`i` (`historical.py` lines 149–187): seasonal-analogue means scaled by
`1 + 0.1*i`, perturbed by the day's random draws and clamped, or the
fallback `(50 + 5i, 0.2i, 5 + i)` when no analogue exists. -/
def dailyFeature (df : List HistRow) (targetDoy : ℤ) (i : ℕ)
    (rC rP rW : ℚ) : ℚ × ℚ × ℚ :=
  let similar := similarDays df targetDoy
  if 0 < similar.length then
    let vf : ℚ := 1 + (i : ℚ) * (1 / 10)
    let avgCloud := mean (similar.map HistRow.cloud_cover) * vf + rC
    let avgPrecip := mean (similar.map HistRow.precipitation) * vf + rP
    let avgWind := mean (similar.map HistRow.wind_speed) * vf + rW
    (max 0 (min 100 avgCloud), max 0 avgPrecip, max 0 avgWind)
  else
    (50 + (i : ℚ) * 5, (i : ℚ) * (1 / 5), 5 + (i : ℚ))

/-- `get_5day_forecast_data`: one record per future day when the
predictions mapping is non-empty, none otherwise.  The temperature comes
from the first model's series (`list(predictions.values())[0]`), sliced
to the day's 24 hours, averaged, offset by `(i - 2) * 2` and converted
to Fahrenheit when requested; the weather code classifies the day's
feature triple. -/
def get_5day_forecast_data (df : List HistRow)
    (predictions : List (String × List ℚ)) (days : ℕ) (temp_unit : String)
    (targetDoy : ℕ → ℤ) (rand : ℕ → ℚ × ℚ × ℚ) : List DailyForecast :=
  (List.range days).filterMap fun i =>
    if predictions = [] then none
    else
      let feats := dailyFeature df (targetDoy i) i (rand i).1 (rand i).2.1 (rand i).2.2
      let firstSeries := (predictions.head?.map Prod.snd).getD []
      let dayPreds := (firstSeries.drop (i * 24)).take 24
      let avgTemp0 := mean dayPreds + ((i : ℚ) - 2) * 2
      let avgTemp :=
        if temp_unit = "fahrenheit" then avgTemp0 * 9 / 5 + 32 else avgTemp0
      some { temperature := avgTemp
           , weather_code := weather_code feats.2.1 feats.2.2 feats.1
           , cloud_cover := feats.1
           , precipitation := feats.2.1
           , wind_speed := feats.2.2 }

/-- With a non-empty predictions mapping headed by `e`, the aggregator
is a plain map over the day indices. -/
theorem get_5day_cons (df : List HistRow) (e : String × List ℚ)
    (rest : List (String × List ℚ)) (days : ℕ) (temp_unit : String)
    (targetDoy : ℕ → ℤ) (rand : ℕ → ℚ × ℚ × ℚ) :
    get_5day_forecast_data df (e :: rest) days temp_unit targetDoy rand =
      (List.range days).map fun i =>
        let feats := dailyFeature df (targetDoy i) i (rand i).1 (rand i).2.1 (rand i).2.2
        let dayPreds := (e.2.drop (i * 24)).take 24
        let avgTemp0 := mean dayPreds + ((i : ℚ) - 2) * 2
        let avgTemp :=
          if temp_unit = "fahrenheit" then avgTemp0 * 9 / 5 + 32 else avgTemp0
        { temperature := avgTemp
        , weather_code := weather_code feats.2.1 feats.2.2 feats.1
        , cloud_cover := feats.1
        , precipitation := feats.2.1
        , wind_speed := feats.2.2 } := by
  unfold get_5day_forecast_data
  have hne : (e :: rest : List (String × List ℚ)) = [] ↔ False := by simp
  simp only [hne, if_false, List.head?_cons, Option.map_some, Option.getD_some]
  exact filterMap_some_eq_map _ _

/-- A contiguous slice of a list, written positionally: for
`m + n ≤ l.length`, the `n` elements starting at position `m`. -/
theorem slice_eq_range_getD (l : List ℚ) (m n : ℕ) (h : m + n ≤ l.length) :
    (l.drop m).take n = (List.range n).map fun k => l.getD (m + k) 0 := by
  apply List.ext_getElem?
  intro k
  by_cases hk : k < n
  · rw [List.getElem?_take_of_lt hk, List.getElem?_drop, List.getElem?_map,
      List.getElem?_range hk]
    have hlt : m + k < l.length := by omega
    simp [List.getElem?_eq_getElem hlt]
  · have h1 : ((l.drop m).take n).length ≤ k := by
      simp [List.length_take, List.length_drop]
      omega
    have h2 : (((List.range n).map fun k => l.getD (m + k) 0)).length ≤ k := by
      simp
      omega
    rw [List.getElem?_eq_none h1, List.getElem?_eq_none h2]

/-! ## Claim C7: the daily temperature formula -/

/-- C7: for each future day index `i` within the horizon (with the first
model's series long enough to cover the day), the output record's
temperature is the arithmetic mean of the 24 hourly predictions at
positions `i*24 … (i+1)*24 - 1`, plus the day-index-centered adjustment
`(i - 2) * 2`, converted to Fahrenheit exactly when the caller requests
the `"fahrenheit"` unit. -/
theorem daily_temperature_rule (df : List HistRow) (e : String × List ℚ)
    (rest : List (String × List ℚ)) (days : ℕ) (temp_unit : String)
    (targetDoy : ℕ → ℤ) (rand : ℕ → ℚ × ℚ × ℚ) (i : ℕ) (hi : i < days)
    (hlen : (i + 1) * 24 ≤ e.2.length) :
    ((get_5day_forecast_data df (e :: rest) days temp_unit targetDoy rand).get? i).map
        DailyForecast.temperature =
      some (
        let base := mean ((List.range 24).map fun k => e.2.getD (i * 24 + k) 0)
          + ((i : ℚ) - 2) * 2
        if temp_unit = "fahrenheit" then base * 9 / 5 + 32 else base) := by
  rw [get_5day_cons, List.get?_map, List.get?_range hi]
  have hsl := slice_eq_range_getD e.2 (i * 24) 24 (by omega)
  simp only [Option.map_some', hsl]

/-- C7 witness: one day ahead, a 24-hour constant series, Fahrenheit. -/
theorem daily_temperature_rule_witness :
    ((get_5day_forecast_data [] [("lr", List.replicate 24 (1 : ℚ))] 1 "fahrenheit"
        (fun _ => 1) (fun _ => (0, 0, 0))).get? 0).map DailyForecast.temperature =
      some (
        let base := mean ((List.range 24).map fun k =>
            (List.replicate 24 (1 : ℚ)).getD (0 * 24 + k) 0)
          + ((0 : ℚ) - 2) * 2
        if "fahrenheit" = "fahrenheit" then base * 9 / 5 + 32 else base) :=
  daily_temperature_rule [] ("lr", List.replicate 24 (1 : ℚ)) [] 1 "fahrenheit"
    (fun _ => 1) (fun _ => (0, 0, 0)) 0 (by decide) (by decide)

/-! ## Claim C8: output bounds -/

/-- C8 counterexample: with a 12-day horizon and no seasonal analogues
(empty history), day index 11 takes the fallback path and gets
`cloud_cover = 50 + 5 * 11 = 105 > 100`, violating the claimed
`[0, 100]` bound. -/
theorem forecast_bounds_counterexample :
    ((get_5day_forecast_data [] [("lr", List.replicate 288 (0 : ℚ))] 12 "celsius"
        (fun _ => 1) (fun _ => (0, 0, 0))).get? 11).map DailyForecast.cloud_cover =
      some 105 ∧ ¬ ((105 : ℚ) ≤ 100) := by
  constructor
  · rw [get_5day_cons, List.get?_map, List.get?_range (by norm_num)]
    simp only [Option.map_some]
    norm_num [dailyFeature, similarDays, mean]
  · norm_num

/-- C8 (amended): every record has non-negative precipitation and wind
speed and non-negative cloud cover; the upper bound
`cloud_cover ≤ 100` holds whenever the day's values come from the
seasonal-analogue path (some similar day exists) or the day index is at
most 10 — in particular for every horizon of at most 11 days.  On the
fallback path with day index ≥ 11 the cloud cover `50 + 5*i` exceeds
100. -/
theorem forecast_bounds (df : List HistRow) (e : String × List ℚ)
    (rest : List (String × List ℚ)) (days : ℕ) (temp_unit : String)
    (targetDoy : ℕ → ℤ) (rand : ℕ → ℚ × ℚ × ℚ) (i : ℕ) (r : DailyForecast)
    (hr : (get_5day_forecast_data df (e :: rest) days temp_unit targetDoy rand).get? i
      = some r) :
    0 ≤ r.precipitation ∧ 0 ≤ r.wind_speed ∧ 0 ≤ r.cloud_cover ∧
    ((similarDays df (targetDoy i) ≠ [] ∨ i ≤ 10) → r.cloud_cover ≤ 100) := by
  rw [get_5day_cons, List.get?_map] at hr
  rcases Option.map_eq_some.mp hr with ⟨j, hj, hjr⟩
  have hij : j = i := by
    have hlen : i < (List.range days).length := by
      by_contra hcon
      rw [List.get?_eq_none.mpr (by omega)] at hj
      exact Option.noConfusion hj
    rw [List.get?_range (by simpa using hlen)] at hj
    exact (Option.some.inj hj).symm
  subst hij
  subst hjr
  dsimp only
  unfold dailyFeature
  by_cases hs : 0 < (similarDays df (targetDoy j)).length
  · simp only [hs, if_true]
    refine ⟨le_max_left 0 _, le_max_left 0 _, le_max_left 0 _, fun _ => ?_⟩
    exact max_le (by norm_num) (min_le_left 100 _)
  · simp only [hs, if_false]
    have hj0 : (0 : ℚ) ≤ (j : ℚ) := Nat.cast_nonneg j
    refine ⟨by positivity, by positivity, by positivity, fun hcase => ?_⟩
    rcases hcase with hne | hle
    · exact absurd (List.length_pos.mpr hne) hs
    · have : (j : ℚ) ≤ 10 := by exact_mod_cast hle
      linarith

/-- C8 witness: day 0 of a 5-day horizon with empty history. -/
theorem forecast_bounds_witness :
    0 ≤ (DailyForecast.mk (-4) 1 50 0 5).precipitation ∧
    0 ≤ (DailyForecast.mk (-4) 1 50 0 5).wind_speed ∧
    0 ≤ (DailyForecast.mk (-4) 1 50 0 5).cloud_cover ∧
    (DailyForecast.mk (-4) 1 50 0 5).cloud_cover ≤ 100 := by
  have h := forecast_bounds [] ("lr", [0]) [] 5 "celsius" (fun _ => 1)
    (fun _ => (0, 0, 0)) 0 (DailyForecast.mk (-4) 1 50 0 5) (by
      rw [get_5day_cons, List.get?_map, List.get?_range (by norm_num)]
      simp only [Option.map_some']
      norm_num [dailyFeature, similarDays, mean, weather_code]
      decide)
  exact ⟨h.1, h.2.1, h.2.2.1, h.2.2.2 (Or.inr (by decide))⟩

/-! ## Claim C9: empty predictions give an empty forecast -/

/-- C9: for every history, horizon, unit, calendar and random draw, an
empty predictions mapping makes the aggregator return the empty list of
records (the embedding is total, so no exception is possible). -/
theorem empty_predictions_empty_forecast (df : List HistRow) (days : ℕ)
    (temp_unit : String) (targetDoy : ℕ → ℤ) (rand : ℕ → ℚ × ℚ × ℚ) :
    get_5day_forecast_data df [] days temp_unit targetDoy rand = [] := by
  simp [get_5day_forecast_data]

/-! ## Claim C10: only the first model's series matters -/

/-- C10: two non-empty predictions mappings whose first series agree
produce identical forecast records, whatever the other entries are: only
the first model's series (mapping order) influences the output. -/
theorem only_first_series_used (df : List HistRow) (days : ℕ)
    (temp_unit : String) (targetDoy : ℕ → ℤ) (rand : ℕ → ℚ × ℚ × ℚ)
    (e f : String × List ℚ) (rest rest2 : List (String × List ℚ))
    (h : e.2 = f.2) :
    get_5day_forecast_data df (e :: rest) days temp_unit targetDoy rand =
      get_5day_forecast_data df (f :: rest2) days temp_unit targetDoy rand := by
  rw [get_5day_cons, get_5day_cons, h]

/-- C10 witness: same head series, different names and tails. -/
theorem only_first_series_used_witness :
    get_5day_forecast_data [] [("a", [1]), ("c", [99])] 3 "celsius"
        (fun _ => 1) (fun _ => (0, 0, 0)) =
      get_5day_forecast_data [] [("b", [1])] 3 "celsius"
        (fun _ => 1) (fun _ => (0, 0, 0)) :=
  only_first_series_used [] 3 "celsius" (fun _ => 1) (fun _ => (0, 0, 0))
    ("a", [1]) ("b", [1]) [("c", [99])] [] rfl

end WeatherApp
